import Mathlib

/-!
Verification development for the span segment flusher
(src/sentry/spans/consumers/process/flusher.py).

The worker loop body (SpanFlusher.main, lines 120..155) is embedded as a
function from the inputs of one iteration to the ordered list of observable
events of that iteration.  The pipeline-stage side (SpanFlusher.submit,
lines 168..224, _create_process lines 59..85, join lines 234..246) is
embedded as explicit state passing over a StageState record.  Wall-clock
reads are inputs; the shared primitives (stop flag, drift, backpressure)
are fields of the state records.
-/

namespace SpanFlusher

/-- A span as the worker sees it: an opaque, already-serialized payload.
The worker never inspects it; we carry its serialized JSON text. -/
structure Span where
  payload : String
  deriving DecidableEq

/-- A segment returned by SpansBuffer.flush_segments: an ordered list of
spans (field FlushedSegment.spans in the buffer module). -/
structure FlushedSegment where
  spans : List Span
  deriving DecidableEq

/-- The mapping returned by buffer.flush_segments, as an insertion-ordered
association list (Python dicts preserve insertion order, and the loop at
line 132 iterates items in that order). -/
abbrev FlushedSegments := List (String × FlushedSegment)

/-- Comma-separated join of already-serialized JSON values, as a JSON
serializer renders the elements of an array. -/
def joinCommaSep : List String → String
  | [] => ""
  | [s] => s
  | s :: t :: ss => s ++ "," ++ joinCommaSep (t :: ss)

/-- Model of rapidjson.dumps applied at line 144 to the one-key object whose
key is the literal string spans and whose value is the list of span
payloads.  rapidjson default formatting emits no whitespace. -/
def rapidjsonDumpsSpansObj (payloads : List String) : String :=
  "\x7b\"spans\":[" ++ joinCommaSep payloads ++ "]\x7d"

/-- Modelled from the spec: the published payload format of section 6 -- the
textual object with literal field name spans, the array holding the span
payloads in the order the Buffer returned them, no whitespace, no trailing
newline. -/
def specPublishedText (payloads : List String) : String :=
  "\x7b\"spans\":[" ++ joinCommaSep payloads ++ "]\x7d"

/-- The byte encoding applied at line 144: str.encode of Python, UTF-8. -/
def utf8Bytes (s : String) : List UInt8 :=
  s.toUTF8.toList

/-- The Kafka payload value built at lines 143..145 for one segment. -/
def payloadBytes (spans : List Span) : List UInt8 :=
  utf8Bytes (rapidjsonDumpsSpansObj (spans.map Span.payload))

/-- Observable events of one worker loop iteration, in program order. -/
inductive WorkerEvent where
  | flushCall (now : Int)
  | setBackpressure (b : Bool)
  | sleepIdle
  | incrEmptySegments
  | timingSegmentSize (n : Nat)
  | produceRecord (value : List UInt8)
  | awaitFuture (value : List UInt8)
  | ack (segs : FlushedSegments)
  deriving DecidableEq

/-- Inputs of one worker loop iteration: the wall clock read at line 121,
the shared drift value, the two tunables, and what flush_segments returns. -/
structure IterationInput where
  wallClock : Int
  drift : Int
  maxFlushSegments : Nat
  assignedShardsCount : Nat
  flushed : FlushedSegments
  deriving DecidableEq

/-- The boolean stored into should_backpressure at lines 124..126:
len(flushed_segments) >= max_flush_segments * len(buffer.assigned_shards). -/
def iterationBackpressure (inp : IterationInput) : Bool :=
  decide (inp.maxFlushSegments * inp.assignedShardsCount ≤ inp.flushed.length)

/-- Events emitted for one segment by the loop body at lines 132..148:
an empty segment only bumps the empty-segments counter (lines 133..139);
a nonempty one emits the size timing and hands the payload to produce. -/
def segmentEvents (seg : FlushedSegment) : List WorkerEvent :=
  if seg.spans.isEmpty then
    [WorkerEvent.incrEmptySegments]
  else
    [WorkerEvent.timingSegmentSize (payloadBytes seg.spans).length,
     WorkerEvent.produceRecord (payloadBytes seg.spans)]

/-- All publish-phase events of the iteration (the for loop at line 132). -/
def publishEvents (fl : FlushedSegments) : List WorkerEvent :=
  fl.flatMap (fun kv => segmentEvents kv.2)

/-- The await phase at lines 150..151: producer_futures holds one future per
produce call of this iteration, in produce order, and each is resolved. -/
def futureEvents (fl : FlushedSegments) : List WorkerEvent :=
  (fl.filter (fun kv => !kv.2.spans.isEmpty)).map
    (fun kv => WorkerEvent.awaitFuture (payloadBytes kv.2.spans))

/-- One full iteration of the while loop at lines 120..155: compute now,
flush, store the backpressure bit, then either sleep (empty result,
lines 128..130) or publish, await every future, and acknowledge the whole
batch with done_flush_segments (line 155). -/
def iterationEvents (inp : IterationInput) : List WorkerEvent :=
  let pre := [WorkerEvent.flushCall (inp.wallClock + inp.drift),
              WorkerEvent.setBackpressure (iterationBackpressure inp)]
  if inp.flushed.isEmpty then
    pre ++ [WorkerEvent.sleepIdle]
  else
    pre ++ publishEvents inp.flushed ++ futureEvents inp.flushed
        ++ [WorkerEvent.ack inp.flushed]

/-- Extracts the payload of a produce event. -/
def produceValue : WorkerEvent → Option (List UInt8)
  | WorkerEvent.produceRecord v => some v
  | _ => none

/-- Extracts the payload of a future-resolution event. -/
def awaitValue : WorkerEvent → Option (List UInt8)
  | WorkerEvent.awaitFuture v => some v
  | _ => none

/-- Extracts the acknowledged batch of a done_flush_segments event. -/
def ackSegments : WorkerEvent → Option FlushedSegments
  | WorkerEvent.ack segs => some segs
  | _ => none

/-- Extracts the stored bit of a backpressure-store event. -/
def bpValue : WorkerEvent → Option Bool
  | WorkerEvent.setBackpressure b => some b
  | _ => none

/-- Recognizes the empty-segments counter increment of line 138. -/
def isEmptySegIncr : WorkerEvent → Bool
  | WorkerEvent.incrEmptySegments => true
  | _ => false

/-- MAX_PROCESS_RESTARTS = 10 (line 19). -/
def MAX_PROCESS_RESTARTS : Nat := 10

/-- The mutable state of the SpanFlusher stage object: the shared values
stopped, current_drift, should_backpressure (lines 51..54), the sticky
redis_was_full flag (line 52), the restart counter (line 84) and whether
the worker process is currently alive. -/
structure StageState where
  processAlive : Bool
  processRestarts : Nat
  redisWasFull : Bool
  currentDrift : Int
  shouldBackpressure : Bool
  stopped : Bool
  deriving DecidableEq

/-- One (used, available) pair from buffer.get_memory_info(). -/
structure MemoryInfo where
  used : Nat
  available : Nat
  deriving DecidableEq

/-- Per-call environment of submit: the wall clock read at line 201 and
what buffer.get_memory_info() would return at line 209. -/
structure SubmitEnv where
  wallClock : Int
  memoryInfos : List MemoryInfo
  deriving DecidableEq

/-- The payload of a message handed to submit: FilteredPayload or int. -/
inductive MsgPayload where
  | filtered
  | intPayload (n : Int)
  deriving DecidableEq

/-- Observable actions of one submit call, in program order. -/
inductive StageAction where
  | incrFlusherDead
  | createWorker
  | recordStoredSegments
  | incrSoftBackpressure
  | timingDrift (d : Int)
  | getMemoryInfo
  | logFatalRedisFull
  | incrHardBackpressure
  | forwardToNextStep (p : MsgPayload)
  deriving DecidableEq

/-- How a submit call returns: normally, by raising MessageRejected, or by
raising the RuntimeError of lines 179..181. -/
inductive SubmitOutcome where
  | ok
  | messageRejected
  | fatalCrash
  deriving DecidableEq

/-- Result of one submit call: new stage state, emitted actions, outcome. -/
structure SubmitResult where
  state : StageState
  actions : List StageAction
  outcome : SubmitOutcome
  deriving DecidableEq

/-- Effect of _create_process (lines 59..85) on the stage state: a fresh
worker is constructed and started, and the restart counter is reset to 0
at line 84 before the start. -/
def createdProcessState (st : StageState) : StageState :=
  { st with processAlive := true, processRestarts := 0 }

/-- Sum of the used fields over buffer.get_memory_info() (line 210). -/
def memUsedSum (env : SubmitEnv) : Nat :=
  (env.memoryInfos.map MemoryInfo.used).sum

/-- Sum of the available fields over buffer.get_memory_info() (line 211). -/
def memAvailSum (env : SubmitEnv) : Nat :=
  (env.memoryInfos.map MemoryInfo.available).sum

/-- The guard at line 212: available > 0 and used / available exceeds
max_memory_percentage, with exact rational division. -/
def memOverLimit (pct : ℚ) (env : SubmitEnv) : Bool :=
  decide (0 < memAvailSum env) &&
    decide (pct < (memUsedSum env : ℚ) / (memAvailSum env : ℚ))

/-- The body of submit after the liveness check: lines 183..224.  Records
stored segments, rejects on soft backpressure (lines 193..195), sets the
drift for integer payloads (lines 200..202), runs the memory check when
max_memory_percentage < 1.0 (lines 208..221), else clears redis_was_full
and forwards to the next step (lines 223..224). -/
def submitBody (pct : ℚ) (env : SubmitEnv) (st : StageState)
    (payload : MsgPayload) (acts0 : List StageAction) : SubmitResult :=
  let acts1 := acts0 ++ [StageAction.recordStoredSegments]
  if st.shouldBackpressure then
    { state := st, actions := acts1 ++ [StageAction.incrSoftBackpressure],
      outcome := SubmitOutcome.messageRejected }
  else
    let st2 := match payload with
      | MsgPayload.intPayload n => { st with currentDrift := n - env.wallClock }
      | MsgPayload.filtered => st
    let acts2 := match payload with
      | MsgPayload.intPayload n => acts1 ++ [StageAction.timingDrift (n - env.wallClock)]
      | MsgPayload.filtered => acts1
    if pct < 1 then
      let acts3 := acts2 ++ [StageAction.getMemoryInfo]
      if memOverLimit pct env then
        { state := { st2 with redisWasFull := true },
          actions := acts3
              ++ (if st2.redisWasFull then [] else [StageAction.logFatalRedisFull])
              ++ [StageAction.incrHardBackpressure],
          outcome := SubmitOutcome.messageRejected }
      else
        { state := { st2 with redisWasFull := false },
          actions := acts3 ++ [StageAction.forwardToNextStep payload],
          outcome := SubmitOutcome.ok }
    else
      { state := { st2 with redisWasFull := false },
        actions := acts2 ++ [StageAction.forwardToNextStep payload],
        outcome := SubmitOutcome.ok }

/-- submit (lines 168..224).  If the worker is not alive (line 173), the
flusher-dead counter is bumped; when the restart counter is below
MAX_PROCESS_RESTARTS a fresh worker is created (which resets the counter,
line 84) and the counter is then incremented (line 177), otherwise the
RuntimeError of lines 179..181 is raised.  Then the body runs. -/
def submit (pct : ℚ) (env : SubmitEnv) (st : StageState)
    (payload : MsgPayload) : SubmitResult :=
  if st.processAlive then
    submitBody pct env st payload []
  else if st.processRestarts < MAX_PROCESS_RESTARTS then
    let st1 := createdProcessState st
    let st2 := { st1 with processRestarts := st1.processRestarts + 1 }
    submitBody pct env st2 payload
      [StageAction.incrFlusherDead, StageAction.createWorker]
  else
    { state := st, actions := [StageAction.incrFlusherDead],
      outcome := SubmitOutcome.fatalCrash }

/-- The stage state right after __init__ (lines 38..57): flags cleared,
drift 0, and _create_process has run (worker alive, restart counter 0). -/
def initialStageState : StageState :=
  { processAlive := true, processRestarts := 0, redisWasFull := false,
    currentDrift := 0, shouldBackpressure := false, stopped := false }

/-- An external worker crash as the stage observes it: is_alive turns
false; nothing else about the stage state changes. -/
def crashed (st : StageState) : StageState :=
  { st with processAlive := false }

/-- n rounds of: the worker crashes, then submit runs once.  Returns the
outcome of every round in order together with the final state. -/
def crashRestartRun (pct : ℚ) (env : SubmitEnv) (payload : MsgPayload) :
    Nat → StageState → List SubmitOutcome × StageState
  | 0, st => ([], st)
  | Nat.succ n, st =>
    let r := submit pct env (crashed st) payload
    let rest := crashRestartRun pct env payload n r.state
    (r.outcome :: rest.1, rest.2)

/-- Observable events of one join call, in program order. -/
inductive JoinEvent where
  | setStopFlag
  | joinNextStep (timeout : Option ℚ)
  | sleepTenth
  | terminateWorker
  deriving DecidableEq

/-- Inputs of one join call (lines 234..246): the wall clock at entry, how
long next_step.join takes, the timeout argument, the aliveness of the
worker as a function of time, and whether the worker is an OS process
(isinstance check at line 245). -/
structure JoinInput where
  entryTime : ℚ
  nextStepJoinDuration : ℚ
  timeout : Option ℚ
  aliveAt : ℚ → Bool
  isProcessIsolated : Bool

/-- The deadline computed at line 238: entry time plus timeout, absent when
timeout is None (or falsy 0). -/
def deadlineOf (inp : JoinInput) : Option ℚ :=
  match inp.timeout with
  | none => none
  | some t => if t = 0 then none else some (inp.entryTime + t)

/-- Time of the first liveness check of the busy-wait loop: after
next_step.join has returned (line 240). -/
def pollStartTime (inp : JoinInput) : ℚ :=
  inp.entryTime + inp.nextStepJoinDuration

/-- Time of the k-th liveness check, with one 0.1 s sleep between checks
(lines 242..243). -/
def pollTime (inp : JoinInput) (k : Nat) : ℚ :=
  pollStartTime inp + (k : ℚ) / 10

/-- The loop guard at line 242 evaluated at the k-th check:
process.is_alive() and (deadline is None or deadline > time.time()). -/
def busyWaitCond (inp : JoinInput) (k : Nat) : Bool :=
  inp.aliveAt (pollTime inp k) &&
    (match deadlineOf inp with
     | none => true
     | some d => decide (pollTime inp k < d))

/-- Fueled busy-wait loop of lines 242..243: counts the sleeps taken. -/
def busyWaitCount (inp : JoinInput) : Nat → Nat → Nat
  | 0, k => k
  | Nat.succ fuel, k =>
    if busyWaitCond inp k then busyWaitCount inp fuel (k + 1) else k

/-- Number of 0.1 s sleeps the join busy-wait performs. -/
def joinSleepCount (fuel : Nat) (inp : JoinInput) : Nat :=
  busyWaitCount inp fuel 0

/-- One join call (lines 234..246): set the stop flag, join the next step,
busy-wait in 0.1 s increments, then call terminate on the worker exactly
when it is an OS process (line 245), with no liveness condition. -/
def joinEvents (fuel : Nat) (inp : JoinInput) : List JoinEvent :=
  [JoinEvent.setStopFlag, JoinEvent.joinNextStep inp.timeout]
    ++ List.replicate (joinSleepCount fuel inp) JoinEvent.sleepTenth
    ++ (if inp.isProcessIsolated then [JoinEvent.terminateWorker] else [])

/-- The busy-wait loop really exited (rather than running out of fuel):
its guard is false at the index where it stopped. -/
abbrev loopExited (fuel : Nat) (inp : JoinInput) : Prop :=
  busyWaitCond inp (joinSleepCount fuel inp) = false

theorem publishEvents_nil : publishEvents [] = [] := rfl

theorem publishEvents_cons (kv : String × FlushedSegment)
    (fl : FlushedSegments) :
    publishEvents (kv :: fl) = segmentEvents kv.2 ++ publishEvents fl := by
  simp [publishEvents]

theorem filterMap_produce_publishEvents (fl : FlushedSegments) :
    (publishEvents fl).filterMap produceValue
      = (fl.filter (fun kv => !kv.2.spans.isEmpty)).map
          (fun kv => payloadBytes kv.2.spans) := by
  induction fl with
  | nil => rfl
  | cons kv fl ih =>
    rw [publishEvents_cons, List.filterMap_append, ih]
    by_cases hs : kv.2.spans = [] <;>
      simp [segmentEvents, hs, List.filter_cons, produceValue]

theorem filterMap_await_publishEvents (fl : FlushedSegments) :
    (publishEvents fl).filterMap awaitValue = [] := by
  induction fl with
  | nil => rfl
  | cons kv fl ih =>
    rw [publishEvents_cons, List.filterMap_append, ih]
    by_cases hs : kv.2.spans = [] <;>
      simp [segmentEvents, hs, awaitValue]

theorem filterMap_ack_publishEvents (fl : FlushedSegments) :
    (publishEvents fl).filterMap ackSegments = [] := by
  induction fl with
  | nil => rfl
  | cons kv fl ih =>
    rw [publishEvents_cons, List.filterMap_append, ih]
    by_cases hs : kv.2.spans = [] <;>
      simp [segmentEvents, hs, ackSegments]

theorem filterMap_bp_publishEvents (fl : FlushedSegments) :
    (publishEvents fl).filterMap bpValue = [] := by
  induction fl with
  | nil => rfl
  | cons kv fl ih =>
    rw [publishEvents_cons, List.filterMap_append, ih]
    by_cases hs : kv.2.spans = [] <;>
      simp [segmentEvents, hs, bpValue]

theorem countP_emptyIncr_publishEvents (fl : FlushedSegments) :
    (publishEvents fl).countP isEmptySegIncr
      = (fl.filter (fun kv => kv.2.spans.isEmpty)).length := by
  induction fl with
  | nil => rfl
  | cons kv fl ih =>
    rw [publishEvents_cons, List.countP_append, ih]
    by_cases hs : kv.2.spans = [] <;>
      simp [segmentEvents, hs, List.filter_cons, isEmptySegIncr,
        List.countP_cons, Nat.add_comm]

theorem filterMap_produce_futureEvents (fl : FlushedSegments) :
    (futureEvents fl).filterMap produceValue = [] := by
  simp [futureEvents, List.filterMap_map, produceValue, Function.comp]

theorem filterMap_await_futureEvents (fl : FlushedSegments) :
    (futureEvents fl).filterMap awaitValue
      = (fl.filter (fun kv => !kv.2.spans.isEmpty)).map
          (fun kv => payloadBytes kv.2.spans) := by
  have h : ∀ l : List (String × FlushedSegment),
      (l.map (fun kv => WorkerEvent.awaitFuture (payloadBytes kv.2.spans))).filterMap
          awaitValue
        = l.map (fun kv => payloadBytes kv.2.spans) := by
    intro l
    induction l with
    | nil => rfl
    | cons x l ih => simp [awaitValue, ih]
  exact h _

theorem filterMap_ack_futureEvents (fl : FlushedSegments) :
    (futureEvents fl).filterMap ackSegments = [] := by
  simp [futureEvents, List.filterMap_map, ackSegments, Function.comp]

theorem filterMap_bp_futureEvents (fl : FlushedSegments) :
    (futureEvents fl).filterMap bpValue = [] := by
  simp [futureEvents, List.filterMap_map, bpValue, Function.comp]

theorem countP_emptyIncr_futureEvents (fl : FlushedSegments) :
    (futureEvents fl).countP isEmptySegIncr = 0 := by
  simp [futureEvents, List.countP_eq_zero, isEmptySegIncr]

theorem filterMap_produce_iteration (inp : IterationInput) :
    (iterationEvents inp).filterMap produceValue
      = (inp.flushed.filter (fun kv => !kv.2.spans.isEmpty)).map
          (fun kv => payloadBytes kv.2.spans) := by
  by_cases h : inp.flushed.isEmpty
  · rw [List.isEmpty_iff] at h
    simp [iterationEvents, h, produceValue]
  · simp only [iterationEvents, h, if_false, List.filterMap_append]
    simp [filterMap_produce_publishEvents, filterMap_produce_futureEvents,
      produceValue]

theorem filterMap_await_iteration (inp : IterationInput) :
    (iterationEvents inp).filterMap awaitValue
      = (inp.flushed.filter (fun kv => !kv.2.spans.isEmpty)).map
          (fun kv => payloadBytes kv.2.spans) := by
  by_cases h : inp.flushed.isEmpty
  · rw [List.isEmpty_iff] at h
    simp [iterationEvents, h, awaitValue]
  · simp only [iterationEvents, h, if_false, List.filterMap_append]
    simp [filterMap_await_publishEvents, filterMap_await_futureEvents,
      awaitValue]

theorem filterMap_ack_iteration (inp : IterationInput)
    (h : inp.flushed ≠ []) :
    (iterationEvents inp).filterMap ackSegments = [inp.flushed] := by
  have h2 : inp.flushed.isEmpty = false := by
    simpa [List.isEmpty_iff] using h
  simp only [iterationEvents, h2, Bool.false_eq_true, if_false,
    List.filterMap_append]
  simp [filterMap_ack_publishEvents, filterMap_ack_futureEvents, ackSegments]

theorem filterMap_bp_iteration (inp : IterationInput) :
    (iterationEvents inp).filterMap bpValue = [iterationBackpressure inp] := by
  by_cases h : inp.flushed.isEmpty
  · simp [iterationEvents, h, bpValue]
  · simp only [iterationEvents, h, if_false, List.filterMap_append]
    simp [filterMap_bp_publishEvents, filterMap_bp_futureEvents, bpValue]

theorem countP_emptyIncr_iteration (inp : IterationInput) :
    (iterationEvents inp).countP isEmptySegIncr
      = (inp.flushed.filter (fun kv => kv.2.spans.isEmpty)).length := by
  by_cases h : inp.flushed.isEmpty
  · rw [List.isEmpty_iff] at h
    simp [iterationEvents, h, isEmptySegIncr]
  · simp only [iterationEvents, h, if_false, List.countP_append]
    simp [countP_emptyIncr_publishEvents, countP_emptyIncr_futureEvents,
      isEmptySegIncr, List.countP_cons]

theorem iteration_ack_last (inp : IterationInput) (h : inp.flushed ≠ []) :
    ∃ l, iterationEvents inp = l ++ [WorkerEvent.ack inp.flushed] := by
  have h2 : inp.flushed.isEmpty = false := by
    simpa [List.isEmpty_iff] using h
  refine ⟨[WorkerEvent.flushCall (inp.wallClock + inp.drift),
          WorkerEvent.setBackpressure (iterationBackpressure inp)]
        ++ publishEvents inp.flushed ++ futureEvents inp.flushed, ?_⟩
  simp [iterationEvents, h2]

theorem iteration_take_two (inp : IterationInput) :
    (iterationEvents inp).take 2
      = [WorkerEvent.flushCall (inp.wallClock + inp.drift),
         WorkerEvent.setBackpressure (iterationBackpressure inp)] := by
  by_cases h : inp.flushed.isEmpty <;> simp [iterationEvents, h]

/-- A concrete iteration input whose flush call returned no segments. -/
def emptyFlushIteration : IterationInput :=
  { wallClock := 100, drift := 0, maxFlushSegments := 2,
    assignedShardsCount := 1, flushed := [] }

/-- A concrete iteration input with two nonempty flushed segments. -/
def happyIteration : IterationInput :=
  { wallClock := 1000, drift := -5, maxFlushSegments := 2,
    assignedShardsCount := 1,
    flushed := [("k1", FlushedSegment.mk [Span.mk "1"]),
                ("k2", FlushedSegment.mk [Span.mk "2"])] }

/-- A concrete iteration input matching spec scenario 4: the buffer
returns one segment with zero spans. -/
def emptySegIteration : IterationInput :=
  { wallClock := 10, drift := 0, maxFlushSegments := 2,
    assignedShardsCount := 1,
    flushed := [("k", FlushedSegment.mk [])] }

/-- A concrete iteration input whose flush returned exactly
max_flush_segments times the shard count segments. -/
def fullBatchIteration : IterationInput :=
  { wallClock := 50, drift := 0, maxFlushSegments := 1,
    assignedShardsCount := 2,
    flushed := [("a", FlushedSegment.mk [Span.mk "x"]),
                ("b", FlushedSegment.mk [Span.mk "y"])] }

/-- Claim C1, counterexample: in a worker loop iteration whose flush call
returned no segments the loop sleeps and continues (lines 128..130), so
done_flush_segments is called zero times in that iteration, not exactly
once. -/
theorem c1_counterexample :
    (iterationEvents emptyFlushIteration).filterMap ackSegments = [] := by
  decide

/-- Claim C1 (amended): in every worker loop iteration whose flush call
returned at least one segment, done_flush_segments is called exactly once,
as the last step of the iteration, covering the whole flushed batch, and
it happens only after every publish completion handle produced in the
iteration has been resolved: the resolved handles are exactly the produced
payloads, in order, and the acknowledge is the final event. -/
theorem c1_single_batched_ack_after_awaits (inp : IterationInput)
    (h : inp.flushed ≠ []) :
    (iterationEvents inp).filterMap ackSegments = [inp.flushed]
    ∧ (∃ l, iterationEvents inp = l ++ [WorkerEvent.ack inp.flushed])
    ∧ (iterationEvents inp).filterMap awaitValue
        = (iterationEvents inp).filterMap produceValue :=
  ⟨filterMap_ack_iteration inp h, iteration_ack_last inp h, by
    rw [filterMap_await_iteration, filterMap_produce_iteration]⟩

/-- Witness for the amended claim C1 at a concrete two-segment batch. -/
theorem c1_witness :
    happyIteration.flushed ≠ []
    ∧ ((iterationEvents happyIteration).filterMap ackSegments
          = [happyIteration.flushed]
       ∧ (∃ l, iterationEvents happyIteration
              = l ++ [WorkerEvent.ack happyIteration.flushed])
       ∧ (iterationEvents happyIteration).filterMap awaitValue
          = (iterationEvents happyIteration).filterMap produceValue) :=
  ⟨by decide, c1_single_batched_ack_after_awaits happyIteration (by decide)⟩

/-- Claim C2: the published payloads of an iteration are exactly, in the
order the buffer returned them, the UTF-8 encodings of the textual object
with literal field name spans whose array holds the span payloads of one
nonempty segment each; segments with no spans publish nothing. -/
theorem c2_published_payload_format (inp : IterationInput) :
    (iterationEvents inp).filterMap produceValue
      = (inp.flushed.filter (fun kv => !kv.2.spans.isEmpty)).map
          (fun kv =>
            utf8Bytes (specPublishedText (kv.2.spans.map Span.payload))) := by
  rw [filterMap_produce_iteration]
  rfl

/-- Claim C4: provided the buffer honours its contract and returns at most
max_flush_segments segments per assigned shard, the backpressure bit an
iteration stores is true exactly when the flush returned exactly
max_flush_segments times the number of assigned shards; the bit is stored
once per iteration, right after the flush call and before any publish. -/
theorem c4_backpressure_iff_full_batch (inp : IterationInput)
    (h : inp.flushed.length
          ≤ inp.maxFlushSegments * inp.assignedShardsCount) :
    (iterationEvents inp).filterMap bpValue
        = [decide (inp.flushed.length
            = inp.maxFlushSegments * inp.assignedShardsCount)]
    ∧ (iterationEvents inp).take 2
        = [WorkerEvent.flushCall (inp.wallClock + inp.drift),
           WorkerEvent.setBackpressure (iterationBackpressure inp)] := by
  constructor
  · rw [filterMap_bp_iteration]
    have hb : iterationBackpressure inp
        = decide (inp.flushed.length
            = inp.maxFlushSegments * inp.assignedShardsCount) := by
      simp only [iterationBackpressure, decide_eq_decide]
      omega
    rw [hb]
  · exact iteration_take_two inp

/-- Witness for claim C4 at a full batch of two segments over two shards. -/
theorem c4_witness :
    fullBatchIteration.flushed.length
        ≤ fullBatchIteration.maxFlushSegments
            * fullBatchIteration.assignedShardsCount
    ∧ ((iterationEvents fullBatchIteration).filterMap bpValue
        = [decide (fullBatchIteration.flushed.length
            = fullBatchIteration.maxFlushSegments
                * fullBatchIteration.assignedShardsCount)]
       ∧ (iterationEvents fullBatchIteration).take 2
        = [WorkerEvent.flushCall
              (fullBatchIteration.wallClock + fullBatchIteration.drift),
           WorkerEvent.setBackpressure
              (iterationBackpressure fullBatchIteration)]) :=
  ⟨by decide, c4_backpressure_iff_full_batch fullBatchIteration (by decide)⟩

/-- Claim C8: in an iteration with a nonempty flush result, the
empty-segments counter is bumped once per zero-span segment, only the
nonempty segments are published and only they get completion handles, and
the single batched acknowledge still covers the whole flushed mapping,
empty segments included. -/
theorem c8_empty_segments_skipped_but_acked (inp : IterationInput)
    (h : inp.flushed ≠ []) :
    (iterationEvents inp).countP isEmptySegIncr
        = (inp.flushed.filter (fun kv => kv.2.spans.isEmpty)).length
    ∧ (iterationEvents inp).filterMap produceValue
        = (inp.flushed.filter (fun kv => !kv.2.spans.isEmpty)).map
            (fun kv => payloadBytes kv.2.spans)
    ∧ (iterationEvents inp).filterMap awaitValue
        = (inp.flushed.filter (fun kv => !kv.2.spans.isEmpty)).map
            (fun kv => payloadBytes kv.2.spans)
    ∧ (iterationEvents inp).filterMap ackSegments = [inp.flushed] :=
  ⟨countP_emptyIncr_iteration inp, filterMap_produce_iteration inp,
   filterMap_await_iteration inp, filterMap_ack_iteration inp h⟩

/-- Witness for claim C8 at spec scenario 4: the buffer returns exactly
one segment and it has zero spans. -/
theorem c8_witness :
    emptySegIteration.flushed ≠ []
    ∧ ((iterationEvents emptySegIteration).countP isEmptySegIncr
        = (emptySegIteration.flushed.filter
            (fun kv => kv.2.spans.isEmpty)).length
       ∧ (iterationEvents emptySegIteration).filterMap produceValue
        = (emptySegIteration.flushed.filter
            (fun kv => !kv.2.spans.isEmpty)).map
              (fun kv => payloadBytes kv.2.spans)
       ∧ (iterationEvents emptySegIteration).filterMap awaitValue
        = (emptySegIteration.flushed.filter
            (fun kv => !kv.2.spans.isEmpty)).map
              (fun kv => payloadBytes kv.2.spans)
       ∧ (iterationEvents emptySegIteration).filterMap ackSegments
        = [emptySegIteration.flushed]) :=
  ⟨by decide,
   c8_empty_segments_skipped_but_acked emptySegIteration (by decide)⟩

/-- Claim C3, failing run: eleven consecutive rounds in which the worker
crashes and submit then observes it dead.  Every single round restarts the
worker and returns normally, and the restart counter ends at 1: because
_create_process resets process_restarts to 0 (line 84) before submit
increments it (line 177), the counter never exceeds 1, the guard at line
175 always passes, and the RuntimeError of lines 179..181 is unreachable.
The spec cap of 10 restarts therefore never takes effect. -/
theorem c3_restart_cap_unreachable :
    (crashRestartRun 1 (SubmitEnv.mk 0 []) MsgPayload.filtered 11
        initialStageState).1
      = List.replicate 11 SubmitOutcome.ok
    ∧ (crashRestartRun 1 (SubmitEnv.mk 0 []) MsgPayload.filtered 11
        initialStageState).2.processRestarts = 1 := by
  decide

/-- Claim C5: a submit call that passes the liveness and soft-backpressure
checks and carries an integer payload stores payload minus the wall clock
into the shared drift and emits the drift timing; and every worker
iteration opens with a flush call whose now value is the wall clock plus
the shared drift. -/
theorem c5_drift_set_and_used (pct : ℚ) (env : SubmitEnv) (st : StageState)
    (n : Int) (inp : IterationInput)
    (h1 : st.processAlive = true) (h2 : st.shouldBackpressure = false) :
    (submit pct env st (MsgPayload.intPayload n)).state.currentDrift
        = n - env.wallClock
    ∧ StageAction.timingDrift (n - env.wallClock)
        ∈ (submit pct env st (MsgPayload.intPayload n)).actions
    ∧ (iterationEvents inp).take 1
        = [WorkerEvent.flushCall (inp.wallClock + inp.drift)] := by
  refine ⟨?_, ?_, ?_⟩
  · simp only [submit, h1, if_true, submitBody, h2, Bool.false_eq_true,
      if_false]
    by_cases hp : pct < 1 <;> by_cases hm : memOverLimit pct env = true <;>
      simp [hp, hm]
  · simp only [submit, h1, if_true, submitBody, h2, Bool.false_eq_true,
      if_false]
    by_cases hp : pct < 1 <;> by_cases hm : memOverLimit pct env = true <;>
      simp [hp, hm]
  · by_cases hf : inp.flushed.isEmpty <;> simp [iterationEvents, hf]

/-- Witness for claim C5 at the numbers of the claim: payload 1000000
received at wall clock 1000100 makes the drift -100, and the next
iteration with that drift at wall clock 1000200 flushes with
now = 1000100. -/
theorem c5_witness :
    initialStageState.processAlive = true
    ∧ initialStageState.shouldBackpressure = false
    ∧ ((submit 1 (SubmitEnv.mk 1000100 []) initialStageState
          (MsgPayload.intPayload 1000000)).state.currentDrift = -100
       ∧ StageAction.timingDrift (-100)
          ∈ (submit 1 (SubmitEnv.mk 1000100 []) initialStageState
              (MsgPayload.intPayload 1000000)).actions
       ∧ (iterationEvents (IterationInput.mk 1000200 (-100) 2 1 [])).take 1
          = [WorkerEvent.flushCall 1000100]) :=
  ⟨by decide, by decide,
   c5_drift_set_and_used 1 (SubmitEnv.mk 1000100 []) initialStageState
     1000000 (IterationInput.mk 1000200 (-100) 2 1 []) (by decide)
     (by decide)⟩

/-- Claim C6: when the shared backpressure bit is set and the worker is
alive, submit raises MessageRejected, forwards nothing to the next step,
leaves the whole stage state (the shared drift included, even for an
integer payload) unchanged, and bumps the soft backpressure counter. -/
theorem c6_soft_backpressure_rejects (pct : ℚ) (env : SubmitEnv)
    (st : StageState) (payload : MsgPayload)
    (h1 : st.processAlive = true) (h2 : st.shouldBackpressure = true) :
    (submit pct env st payload).outcome = SubmitOutcome.messageRejected
    ∧ (submit pct env st payload).state = st
    ∧ (∀ p, StageAction.forwardToNextStep p
          ∉ (submit pct env st payload).actions)
    ∧ StageAction.incrSoftBackpressure ∈ (submit pct env st payload).actions := by
  refine ⟨?_, ?_, ?_, ?_⟩ <;> simp [submit, h1, submitBody, h2]

/-- Witness for claim C6: an integer payload submitted under soft
backpressure is rejected and the drift stays untouched. -/
theorem c6_witness :
    (StageState.mk true 0 false 7 true false).processAlive = true
    ∧ (StageState.mk true 0 false 7 true false).shouldBackpressure = true
    ∧ ((submit 1 (SubmitEnv.mk 500 []) (StageState.mk true 0 false 7 true false)
          (MsgPayload.intPayload 400)).outcome = SubmitOutcome.messageRejected
       ∧ (submit 1 (SubmitEnv.mk 500 []) (StageState.mk true 0 false 7 true false)
          (MsgPayload.intPayload 400)).state = StageState.mk true 0 false 7 true false
       ∧ (∀ p, StageAction.forwardToNextStep p
          ∉ (submit 1 (SubmitEnv.mk 500 []) (StageState.mk true 0 false 7 true false)
              (MsgPayload.intPayload 400)).actions)
       ∧ StageAction.incrSoftBackpressure
          ∈ (submit 1 (SubmitEnv.mk 500 []) (StageState.mk true 0 false 7 true false)
              (MsgPayload.intPayload 400)).actions) :=
  ⟨by decide, by decide,
   c6_soft_backpressure_rejects 1 (SubmitEnv.mk 500 [])
     (StageState.mk true 0 false 7 true false) (MsgPayload.intPayload 400)
     (by decide) (by decide)⟩

/-- Claim C7: with the worker alive and no soft backpressure, a
max_memory_percentage of exactly 1.0 skips the memory check entirely (no
get_memory_info call, the message is forwarded); below 1.0, when summed
available is positive and summed used over summed available exceeds the
percentage, submit rejects, bumps the hard backpressure counter, sets the
sticky redis_was_full flag and logs fatal exactly on the false-to-true
transition of that flag; when the check passes the flag is cleared and the
message forwarded. -/
theorem c7_memory_check (pct : ℚ) (env : SubmitEnv) (st : StageState)
    (payload : MsgPayload)
    (h1 : st.processAlive = true) (h2 : st.shouldBackpressure = false) :
    (pct = 1 →
      StageAction.getMemoryInfo ∉ (submit pct env st payload).actions
      ∧ (submit pct env st payload).outcome = SubmitOutcome.ok
      ∧ StageAction.forwardToNextStep payload
          ∈ (submit pct env st payload).actions)
    ∧ (pct < 1 → memOverLimit pct env = true →
      (submit pct env st payload).outcome = SubmitOutcome.messageRejected
      ∧ (submit pct env st payload).state.redisWasFull = true
      ∧ StageAction.incrHardBackpressure ∈ (submit pct env st payload).actions
      ∧ (StageAction.logFatalRedisFull ∈ (submit pct env st payload).actions
          ↔ st.redisWasFull = false)
      ∧ (∀ p, StageAction.forwardToNextStep p
          ∉ (submit pct env st payload).actions))
    ∧ (pct < 1 → memOverLimit pct env = false →
      (submit pct env st payload).outcome = SubmitOutcome.ok
      ∧ (submit pct env st payload).state.redisWasFull = false
      ∧ StageAction.forwardToNextStep payload
          ∈ (submit pct env st payload).actions) := by
  refine ⟨?_, ?_, ?_⟩
  · intro hp
    subst hp
    cases payload <;>
      simp [submit, h1, submitBody, h2, lt_irrefl]
  · intro hp hm
    cases payload <;> cases hr : st.redisWasFull <;>
      simp [submit, h1, submitBody, h2, hp, hm, hr]
  · intro hp hm
    cases payload <;>
      simp [submit, h1, submitBody, h2, hp, hm]

/-- Witness for claim C7 at spec scenario 5: percentage 4/5, one shard
reporting used 9 of available 10 (ratio 9/10), starting from a clear
sticky flag. -/
theorem c7_witness :
    initialStageState.processAlive = true
    ∧ initialStageState.shouldBackpressure = false
    ∧ ((4 / 5 : ℚ) < 1 → memOverLimit (4 / 5) (SubmitEnv.mk 0 [MemoryInfo.mk 9 10]) = true →
      (submit (4 / 5) (SubmitEnv.mk 0 [MemoryInfo.mk 9 10]) initialStageState
          MsgPayload.filtered).outcome = SubmitOutcome.messageRejected
      ∧ (submit (4 / 5) (SubmitEnv.mk 0 [MemoryInfo.mk 9 10]) initialStageState
          MsgPayload.filtered).state.redisWasFull = true
      ∧ StageAction.incrHardBackpressure
          ∈ (submit (4 / 5) (SubmitEnv.mk 0 [MemoryInfo.mk 9 10]) initialStageState
              MsgPayload.filtered).actions
      ∧ (StageAction.logFatalRedisFull
          ∈ (submit (4 / 5) (SubmitEnv.mk 0 [MemoryInfo.mk 9 10]) initialStageState
              MsgPayload.filtered).actions
          ↔ initialStageState.redisWasFull = false)
      ∧ (∀ p, StageAction.forwardToNextStep p
          ∉ (submit (4 / 5) (SubmitEnv.mk 0 [MemoryInfo.mk 9 10]) initialStageState
              MsgPayload.filtered).actions)) :=
  ⟨by decide, by decide,
   (c7_memory_check (4 / 5) (SubmitEnv.mk 0 [MemoryInfo.mk 9 10])
      initialStageState MsgPayload.filtered (by decide) (by decide)).2.1⟩

/-- Claim C10: with an empty shard assignment the stored backpressure bit
of every worker iteration is true, whatever the flush call returned (the
comparison at lines 124..126 is length greater or equal max times zero),
and any submit call that then observes the bit with a live worker raises
MessageRejected and forwards nothing. -/
theorem c10_empty_shards_constant_backpressure (inp : IterationInput)
    (pct : ℚ) (env : SubmitEnv) (st : StageState) (payload : MsgPayload)
    (h0 : inp.assignedShardsCount = 0)
    (h1 : st.processAlive = true) (h2 : st.shouldBackpressure = true) :
    iterationBackpressure inp = true
    ∧ (submit pct env st payload).outcome = SubmitOutcome.messageRejected
    ∧ (∀ p, StageAction.forwardToNextStep p
          ∉ (submit pct env st payload).actions) := by
  refine ⟨?_, ?_, ?_⟩
  · simp [iterationBackpressure, h0]
  · simp [submit, h1, submitBody, h2]
  · intro p
    simp [submit, h1, submitBody, h2]

/-- Witness for claim C10: zero assigned shards, flush returned zero
segments, and a filtered-payload submit under the resulting backpressure. -/
theorem c10_witness :
    (IterationInput.mk 7 0 3 0 []).assignedShardsCount = 0
    ∧ (StageState.mk true 0 false 0 true false).processAlive = true
    ∧ (StageState.mk true 0 false 0 true false).shouldBackpressure = true
    ∧ (iterationBackpressure (IterationInput.mk 7 0 3 0 []) = true
       ∧ (submit 1 (SubmitEnv.mk 0 []) (StageState.mk true 0 false 0 true false)
            MsgPayload.filtered).outcome = SubmitOutcome.messageRejected
       ∧ (∀ p, StageAction.forwardToNextStep p
            ∉ (submit 1 (SubmitEnv.mk 0 []) (StageState.mk true 0 false 0 true false)
                MsgPayload.filtered).actions)) :=
  ⟨by decide, by decide, by decide,
   c10_empty_shards_constant_backpressure (IterationInput.mk 7 0 3 0 []) 1
     (SubmitEnv.mk 0 []) (StageState.mk true 0 false 0 true false)
     MsgPayload.filtered (by decide) (by decide) (by decide)⟩

/-- A concrete join input: the worker has already exited before the
busy-wait starts, and it is process-isolated. -/
def joinDeadWorker : JoinInput :=
  { entryTime := 0, nextStepJoinDuration := 0, timeout := some 1,
    aliveAt := fun _ => false, isProcessIsolated := true }

/-- A concrete join input with no timeout and a thread-backed worker. -/
def joinThreadWorker : JoinInput :=
  { entryTime := 3, nextStepJoinDuration := 2, timeout := none,
    aliveAt := fun _ => false, isProcessIsolated := false }

/-- Claim C9, counterexample: the worker is process-isolated but has
already exited (it is not alive at any point of the busy-wait, in
particular not after it), yet join still calls terminate on it, because
the isinstance check at line 245 carries no liveness condition. -/
theorem c9_counterexample :
    JoinEvent.terminateWorker ∈ joinEvents 5 joinDeadWorker
    ∧ joinDeadWorker.aliveAt
        (pollTime joinDeadWorker (joinSleepCount 5 joinDeadWorker))
      = false := by
  decide

/-- Claim C9 (amended): join sets the shared stop flag before joining the
next stage, busy-waits in 0.1 second increments until the worker has
exited or the deadline has passed, and then forcibly terminates the worker
whenever it is process-isolated, regardless of whether it is still
alive. -/
theorem c9_join_shutdown (fuel : Nat) (inp : JoinInput)
    (h : loopExited fuel inp) :
    (joinEvents fuel inp).take 2
        = [JoinEvent.setStopFlag, JoinEvent.joinNextStep inp.timeout]
    ∧ (JoinEvent.terminateWorker ∈ joinEvents fuel inp
        ↔ inp.isProcessIsolated = true)
    ∧ (∀ e ∈ (joinEvents fuel inp).drop 2,
        e = JoinEvent.sleepTenth ∨ e = JoinEvent.terminateWorker)
    ∧ (inp.aliveAt (pollTime inp (joinSleepCount fuel inp)) = false
       ∨ ∃ d, deadlineOf inp = some d
            ∧ d ≤ pollTime inp (joinSleepCount fuel inp)) := by
  refine ⟨?_, ?_, ?_, ?_⟩
  · simp [joinEvents]
  · by_cases hi : inp.isProcessIsolated <;>
      simp [joinEvents, hi, List.mem_replicate]
  · intro e he
    have hd : (joinEvents fuel inp).drop 2
        = List.replicate (joinSleepCount fuel inp) JoinEvent.sleepTenth
          ++ (if inp.isProcessIsolated then [JoinEvent.terminateWorker]
              else []) := by
      simp [joinEvents]
    rw [hd] at he
    rcases List.mem_append.mp he with hm | hm
    · exact Or.inl (List.eq_of_mem_replicate hm)
    · by_cases hi : inp.isProcessIsolated = true
      · rw [if_pos hi] at hm
        exact Or.inr (List.mem_singleton.mp hm)
      · rw [if_neg hi] at hm
        exact absurd hm (List.not_mem_nil e)
  · unfold loopExited busyWaitCond at h
    rcases hdl : deadlineOf inp with _ | d
    · rw [hdl] at h
      simp at h
      exact Or.inl h
    · rw [hdl] at h
      rcases Bool.and_eq_false_iff.mp h with hb | hb
      · exact Or.inl hb
      · exact Or.inr ⟨d, rfl, le_of_not_lt (of_decide_eq_false hb)⟩

/-- Witness for the amended claim C9: the busy-wait exits at once because
the worker already stopped; with a thread-backed worker no terminate call
is made. -/
theorem c9_witness :
    loopExited 4 joinThreadWorker
    ∧ ((joinEvents 4 joinThreadWorker).take 2
        = [JoinEvent.setStopFlag, JoinEvent.joinNextStep joinThreadWorker.timeout]
       ∧ (JoinEvent.terminateWorker ∈ joinEvents 4 joinThreadWorker
          ↔ joinThreadWorker.isProcessIsolated = true)
       ∧ (∀ e ∈ (joinEvents 4 joinThreadWorker).drop 2,
          e = JoinEvent.sleepTenth ∨ e = JoinEvent.terminateWorker)
       ∧ (joinThreadWorker.aliveAt
            (pollTime joinThreadWorker (joinSleepCount 4 joinThreadWorker))
          = false
          ∨ ∃ d, deadlineOf joinThreadWorker = some d
              ∧ d ≤ pollTime joinThreadWorker
                  (joinSleepCount 4 joinThreadWorker))) :=
  ⟨by decide, c9_join_shutdown 4 joinThreadWorker (by decide)⟩

end SpanFlusher
